import Mathlib

/-
Shallow embedding of the Virtual Book Club client (src/virtual-book-club.py).

External HTTP traffic is modelled by oracles carried in a `World` value:
`searchResp`/`descResp` map (time, query) to the upstream reply, and every
issued request is appended to `World.log` with its start time.  Wall-clock
time is modelled in whole seconds (an integer); each HTTP round trip
advances the clock by the fixed duration `World.dt`, and `time.sleep(d)`
advances it by `d`.
Python dictionary fields that may be absent are `Option`s, and Python
truthiness tests on them are spelled out (`""`, `[]`, `0` are falsy).
-/

/-- Python whitespace class used by `str.strip()` and the `\s` regex class
(space, tab, newline, carriage return, vertical tab, form feed). -/
def isPyWs (c : Char) : Bool :=
  c == ' ' || c == '\t' || c == '\n' || c == '\r' || c == '\x0b' || c == '\x0c'

/-- Drop leading Python whitespace. -/
def trimLeftWs (l : List Char) : List Char := l.dropWhile isPyWs

/-- Drop whitespace at both ends, as Python `str.strip()` does. -/
def trimWs (l : List Char) : List Char := trimLeftWs ((trimLeftWs l.reverse).reverse)

/-- Python `s.strip()`. -/
def pyStrip (s : String) : String := ⟨trimWs s.data⟩

/-- Python `s.lower()` (the inputs of interest are ASCII). -/
def pyLower (s : String) : String := ⟨s.data.map Char.toLower⟩

/-- Scan up to the first `'>'`: returns the characters before it (all of them
are distinct from `'>'`) and the remainder after it, or `none` when no `'>'`
follows.  Helper for the tag-stripping regex `<[^>]+>`. -/
def splitTag : List Char → Option (List Char × List Char)
  | [] => none
  | c :: rest =>
    if c = '>' then some ([], rest)
    else match splitTag rest with
      | none => none
      | some (a, b) => some (c :: a, b)

/-- Fuel-indexed body of `re.sub(r'<[^>]+>', '', s)`: at each `'<'` that is
followed by at least one non-`'>'` character and then a `'>'`, the whole
bracketed run is deleted; any other character is kept. -/
def stripTagsFuel : Nat → List Char → List Char
  | 0, _ => []
  | _ + 1, [] => []
  | n + 1, c :: rest =>
    if c = '<' then
      match splitTag rest with
      | some (tagContent, after) =>
        if tagContent.isEmpty then c :: stripTagsFuel n rest
        else stripTagsFuel n after
      | none => c :: stripTagsFuel n rest
    else c :: stripTagsFuel n rest

/-- Python `re.sub(r'<[^>]+>', '', s)` on a character list. -/
def stripTags (l : List Char) : List Char := stripTagsFuel l.length l

/-- Fuel-indexed body of `re.sub(r'\s+', ' ', s)`: every maximal run of
whitespace becomes a single space. -/
def collapseWsFuel : Nat → List Char → List Char
  | 0, _ => []
  | _ + 1, [] => []
  | n + 1, c :: rest =>
    if isPyWs c then ' ' :: collapseWsFuel n (rest.dropWhile isPyWs)
    else c :: collapseWsFuel n rest

/-- Python `re.sub(r'\s+', ' ', s)` on a character list. -/
def collapseWs (l : List Char) : List Char := collapseWsFuel l.length l

/-- Description sanitization from `get_book_description` (lines 225-226):
strip markup tags, collapse whitespace runs to single spaces, then
`str.strip()` the result. -/
def sanitize (s : String) : String := ⟨trimWs (collapseWs (stripTags s.data))⟩

/-- One raw record of the metadata service's `docs` array; each field is
`none` when the corresponding key is absent from the JSON object. -/
structure Doc where
  title : Option String
  author_name : Option (List String)
  first_publish_year : Option Int
  key : Option String
  subject : Option (List String)
  language : Option (List String)
  number_of_pages_median : Option Int
  cover_i : Option Int
  isbn : Option (List String)
  publisher : Option (List String)
  ratings_average : Option ℚ
deriving DecidableEq

/-- Python truthiness of `d.get("title")`: present and a non-empty string. -/
def truthyStr : Option String → Bool
  | some s => !(s == "")
  | none => false

/-- Python truthiness of a list-valued field: present and non-empty. -/
def truthyList : Option (List String) → Bool
  | some l => !l.isEmpty
  | none => false

/-- Python truthiness of an integer field: present and non-zero. -/
def truthyInt : Option Int → Bool
  | some n => !(n == 0)
  | none => false

/-- Filter of `search_books_by_genre` (lines 114-116 and 167-169): a raw
record is kept only when `title`, `author_name` and `first_publish_year`
are all truthy. -/
def validDoc (d : Doc) : Bool :=
  truthyStr d.title && truthyList d.author_name && truthyInt d.first_publish_year

/-- Normalized book record assembled by `search_books_by_genre`
(lines 122-137): the Python dict keyed by these same names. -/
structure BookRecord where
  title : String
  authors : List String
  first_publish_year : Option Int
  subjects : List String
  language : List String
  page_count : Option Int
  key : String
  cover_id : Option Int
  isbn : List String
  publisher : List String
  rating : Option ℚ
  description : String
  source_url : String
  search_api_url : String
deriving DecidableEq

/-- Base URL of the metadata service (`self.open_library_base`). -/
def open_library_base : String := "https://openlibrary.org"

/-- Shape of the JSON value found under `description` in a detail record:
a dict (whose `value` key may be absent), a plain string, or anything
else (including an absent key). -/
inductive DescField where
  | objVal (value : Option String)
  | strVal (s : String)
  | otherVal
deriving DecidableEq

/-- Text extracted from the `description` field (lines 218-222): `""` when
the field is absent, not a dict/str, or a dict without `value`. -/
def descText : DescField → String
  | DescField.objVal v => v.getD ""
  | DescField.strVal s => s
  | DescField.otherVal => ""

/-- Upstream outcome of one detail-record GET: a reply with a status code
and a `description` field, or any raised exception (connection error,
timeout, bad JSON — all caught alike by `get_book_description`). -/
inductive DescResp where
  | ok (status : Nat) (field : DescField)
  | err
deriving DecidableEq

/-- Upstream outcome of one search GET: a reply carrying a status code, the
parsed `docs` array and `response.url`, or a timeout, or any other raised
exception with its message. -/
inductive SearchResp where
  | ok (status : Nat) (docs : List Doc) (url : String)
  | timeout
  | exn (msg : String)
deriving DecidableEq

/-- Log entry for one issued HTTP request of the metadata-service path,
with the time at which it was issued. -/
inductive CallRec where
  | searchCall (subject : String) (reqLimit : Nat) (time : ℤ)
  | descCall (key : String) (time : ℤ)
deriving DecidableEq

/-- Issue time of a logged call. -/
def callTime : CallRec → ℤ
  | CallRec.searchCall _ _ t => t
  | CallRec.descCall _ t => t

/-- State threaded through the client: the clock, the rate limiter's
`last_request_time`, the fixed HTTP round-trip duration, the two upstream
oracles (indexed by request time), and the log of issued requests. -/
structure World where
  now : ℤ
  last_request_time : Option ℤ
  dt : ℤ
  searchResp : ℤ → String → SearchResp
  descResp : ℤ → String → DescResp
  log : List CallRec

/-- `self.min_request_interval` (line 25). -/
def min_request_interval : ℤ := 1

/-- `_rate_limit` (lines 33-39).  `if self.last_request_time:` is a Python
truthiness test, so both `None` and `0.0` skip the sleep; otherwise, when
less than the minimum interval has elapsed, sleep for the difference.  In
both cases `last_request_time` is then set to the current time. -/
def rate_limit (w : World) : World :=
  match w.last_request_time with
  | none => { w with last_request_time := some w.now }
  | some t =>
    if t = 0 then { w with last_request_time := some w.now }
    else
      let elapsed := w.now - t
      if elapsed < min_request_interval then
        let now2 := w.now + (min_request_interval - elapsed)
        { w with now := now2, last_request_time := some now2 }
      else { w with last_request_time := some w.now }

/-- One `requests.get` against the detail endpoint: the reply is the oracle's
value at the current time, the call is logged, and the clock advances by
one round trip. -/
def httpDescCall (w : World) (key : String) : DescResp × World :=
  (w.descResp w.now key,
   { w with now := w.now + w.dt, log := w.log ++ [CallRec.descCall key w.now] })

/-- `get_book_description` (lines 206-235): placeholder for an empty key;
otherwise fetch the detail record, extract and sanitize the description,
truncate past 500 characters, and map every failure (exception, non-200
status, missing or empty description) to a fixed placeholder string. -/
def get_book_description (w : World) (book_key : String) : String × World :=
  if book_key = "" then ("No description available.", w)
  else
    let r := httpDescCall w book_key
    match r.1 with
    | DescResp.ok status field =>
      if status = 200 then
        let d0 := descText field
        let d1 :=
          if d0 = "" then d0
          else
            let s := sanitize d0
            if 500 < s.length then (⟨s.data.take 500⟩ : String) ++ "..." else s
        (if d1 = "" then "No description available." else d1, r.2)
      else ("Description not available.", r.2)
    | DescResp.err => ("Description not available.", r.2)

/-- Record builder of the primary search loop (lines 122-137), before the
description is fetched. -/
def mkBookPrimary (genre respUrl : String) (d : Doc) : BookRecord :=
  let book_key := d.key.getD ""
  { title := d.title.getD "Unknown Title"
    authors := d.author_name.getD ["Unknown Author"]
    first_publish_year := d.first_publish_year
    subjects :=
      match d.subject with
      | some l => if l.isEmpty then [genre] else l
      | none => [genre]
    language := d.language.getD ["English"]
    page_count := d.number_of_pages_median
    key := book_key
    cover_id := d.cover_i
    isbn := d.isbn.getD []
    publisher := (d.publisher.getD ["Unknown Publisher"]).take 3
    rating := d.ratings_average
    description := "Description will be fetched separately"
    source_url := if book_key = "" then "Not available" else open_library_base ++ book_key
    search_api_url := respUrl }

/-- Record builder of the alias-fallback loop (lines 174-189); it differs
from the primary builder only in always using `[genre]` as the subjects. -/
def mkBookAlias (genre respUrl : String) (d : Doc) : BookRecord :=
  { mkBookPrimary genre respUrl d with subjects := [genre] }

/-- Accumulation loop shared by both searches (lines 112-145 and 166-197):
docs failing the filter are skipped before any other per-record work;
for a kept doc the record is built, its description fetched, and the loop
stops once `limit` records have been accumulated (the length test runs
after the append). -/
def collectLoop (mk : Doc → BookRecord) (limit : Nat) :
    World → List Doc → List BookRecord → List BookRecord × World
  | w, [], books => (books, w)
  | w, d :: rest, books =>
    if validDoc d then
      let info := mk d
      let r := get_book_description w info.key
      let books2 := books ++ [{ info with description := r.1 }]
      if limit ≤ books2.length then (books2, r.2)
      else collectLoop mk limit r.2 rest books2
    else collectLoop mk limit w rest books

/-- Static genre-alias table `alternative_genres` (lines 151-157). -/
def alternative_genres (g : String) : Option String :=
  if g = "psychology" then some "psychology"
  else if g = "fantasy" then some "fantasy fiction"
  else if g = "self-help" then some "self help"
  else if g = "science fiction" then some "science fiction"
  else if g = "sci-fi" then some "science fiction"
  else none

/-- Drop everything through the first space character, as
`genre.split(' ', 1)[1]` does when a space is present. -/
def splitAfterSpace : List Char → List Char
  | [] => []
  | c :: rest => if c = ' ' then rest else splitAfterSpace rest

/-- Genre normalization (lines 84-89): strip, then lower-case either the
whole string or the part after the first space. -/
def normalizeGenre (genre : String) : String :=
  let g := pyStrip genre
  if g.data.contains ' ' then pyLower ⟨splitAfterSpace g.data⟩ else pyLower g

/-- User-facing no-results message (line 199). -/
def noBooksMsg (g : String) : String :=
  "No books found for genre '" ++ g ++
    "'. Try: fiction, mystery, romance, biography, history, philosophy, or literature."

/-- One `requests.get` against the search endpoint, with the requested raw
result limit; logged like the description calls. -/
def httpSearchCall (w : World) (subject : String) (reqLimit : Nat) : SearchResp × World :=
  (w.searchResp w.now subject,
   { w with now := w.now + w.dt, log := w.log ++ [CallRec.searchCall subject reqLimit w.now] })

/-- Outcome of `search_books_by_genre`: a list of records or a user-facing
message string. -/
inductive SearchResult where
  | books (records : List BookRecord)
  | msg (text : String)
deriving DecidableEq

/-- Number of returned records, when records were returned. -/
def booksCount : SearchResult → Option Nat
  | SearchResult.books bs => some bs.length
  | SearchResult.msg _ => none

/-- `search_books_by_genre` (lines 77-204): input validation, genre
normalization, one rate-limited primary query requesting
`min(limit*2, 40)` raw results, the filter-and-collect loop, a single
alias-table fallback query when no records were collected, and the
mapping of timeout / exception / non-200 conditions to message strings. -/
def search_books_by_genre (w : World) (genre : String) (limit : Nat) : SearchResult × World :=
  if pyStrip genre = "" then (SearchResult.msg "❌ Please enter a valid genre", w)
  else
    let g := normalizeGenre genre
    let reqLimit := min (limit * 2) 40
    let r1 := httpSearchCall (rate_limit w) g reqLimit
    match r1.1 with
    | SearchResp.timeout =>
      (SearchResult.msg "❌ Error: Request timed out. Please try again.", r1.2)
    | SearchResp.exn m => (SearchResult.msg ("❌ Error searching books: " ++ m), r1.2)
    | SearchResp.ok status docs url =>
      if status = 200 then
        let c1 := collectLoop (mkBookPrimary g url) limit r1.2 docs []
        if c1.1.isEmpty then
          match alternative_genres g with
          | some alt =>
            let r2 := httpSearchCall c1.2 alt reqLimit
            match r2.1 with
            | SearchResp.timeout =>
              (SearchResult.msg "❌ Error: Request timed out. Please try again.", r2.2)
            | SearchResp.exn m => (SearchResult.msg ("❌ Error searching books: " ++ m), r2.2)
            | SearchResp.ok status2 docs2 url2 =>
              if status2 = 200 then
                let c2 := collectLoop (mkBookAlias g url2) limit r2.2 docs2 []
                if c2.1.isEmpty then (SearchResult.msg (noBooksMsg g), c2.2)
                else (SearchResult.books c2.1, c2.2)
              else (SearchResult.msg (noBooksMsg g), r2.2)
          | none => (SearchResult.msg (noBooksMsg g), c1.2)
        else (SearchResult.books c1.1, c1.2)
      else
        (SearchResult.msg ("❌ Open Library API Error: Status code " ++ toString status), r1.2)

/-- Upstream outcome of one POST to the model server: a reply carrying the
status code and the optional `response` field of its JSON body, or a
timeout, or a refused connection, or any other raised exception. -/
inductive GenResp where
  | ok (status : Nat) (response : Option String)
  | timeout
  | connError
  | exn (msg : String)
deriving DecidableEq

/-- `self.OLLAMA_TIMEOUT` (line 28). -/
def OLLAMA_TIMEOUT : Nat := 30

/-- `self.ANALYSIS_TIMEOUT` (line 31). -/
def ANALYSIS_TIMEOUT : Nat := 120

/-- `check_ollama_availability` (lines 41-75): liveness probe posting a
fixed "Hello" prompt; success needs status 200 and a `response` field,
and each failure mode yields its own diagnostic text. -/
def check_ollama_availability (r : GenResp) : Bool × String :=
  match r with
  | GenResp.ok status field =>
    if status = 200 then
      match field with
      | some _ => (true, "Ollama is available and responding")
      | none => (false, "Ollama responded but format unexpected")
    else (false, "Ollama returned status " ++ toString status)
  | GenResp.connError => (false, "Ollama server not running (connection refused)")
  | GenResp.timeout =>
    (false, "Ollama server timeout after " ++ toString OLLAMA_TIMEOUT ++ " seconds")
  | GenResp.exn m => (false, "Ollama error: " ++ m)

/-- Summary prompt template.  In the committed source (lines 309-311) the
opening of this f-string is duplicated, which closes the triple-quoted
literal early and leaves the file with a syntax error; the readable
template of lines 311-315, the evident intent, is embedded here. -/
def promptSummary (title author : String) : String :=
  "Analyze the book \"" ++ title ++ "\" by " ++ author ++ ". Give me:\n" ++
  "📖 **PLOT**: (2-3 sentences about the main story)\n" ++
  "👤 **CHARACTERS**: (main character and their motivation)\n" ++
  "🎭 **THEMES**: (key themes explored)\n" ++
  "✍️ **STYLE**: (writing style and significance)"

/-- Discussion prompt template (lines 317-321). -/
def promptDiscussion (title author : String) : String :=
  "Create discussion questions for \"" ++ title ++ "\" by " ++ author ++ ". Give me:\n" ++
  "👤 **CHARACTER QUESTION**: (about the main character)\n" ++
  "🎭 **THEME QUESTION**: (about the main themes)\n" ++
  "📖 **PLOT QUESTION**: (about the central conflict)\n" ++
  "🌍 **MODERN RELEVANCE**: (how it relates to today)"

/-- Reading-guide prompt template (lines 323-327). -/
def promptReadingGuide (title author : String) : String :=
  "Create a reading guide for \"" ++ title ++ "\" by " ++ author ++ ". Give me:\n" ++
  "📅 **BEFORE READING**: (what to expect)\n" ++
  "📖 **WHILE READING**: (what to watch for)\n" ++
  "📝 **AFTER READING**: (key takeaways)\n" ++
  "📚 **SIMILAR BOOKS**: (recommendations)"

/-- Recommendation prompt template (lines 329-333). -/
def promptRecommendation (title author : String) : String :=
  "Write a recommendation for \"" ++ title ++ "\" by " ++ author ++ ". Give me:\n" ++
  "👥 **WHO SHOULD READ**: (target audience)\n" ++
  "💡 **WHY READ**: (what makes it special)\n" ++
  "🎯 **WHAT YOU'LL GAIN**: (benefits of reading)\n" ++
  "📚 **SIMILAR BOOKS**: (if you like this, try...)"

/-- `prompts.get(analysis_type, prompts["summary"])` (line 338): any
unknown kind falls back to the summary template. -/
def promptFor (analysis_type title author : String) : String :=
  if analysis_type = "discussion" then promptDiscussion title author
  else if analysis_type = "reading_guide" then promptReadingGuide title author
  else if analysis_type = "recommendation" then promptRecommendation title author
  else promptSummary title author

/-- Environment of one `analyze_book_with_ollama` call: configured model
name, the formatted `datetime.now()` value, and the model server's replies
to the liveness probe and to the generation request. -/
structure OllamaEnv where
  model : String
  timestamp : String
  probeResp : GenResp
  genResp : GenResp

/-- One request issued to the model server: the liveness probe or the
generation POST carrying its prompt. -/
inductive NetCall where
  | probe
  | generate (prompt : String)
deriving DecidableEq

/-- Outcome of `analyze_book_with_ollama`: a returned string, or the
IndexError raised by `book['authors'][0]` on an empty author list (that
dict access sits outside the function's try block). -/
inductive AnalyzeResult where
  | ok (text : String)
  | indexError
deriving DecidableEq

/-- Provenance footer appended on success (line 370). -/
def provenanceFooter (model timestamp source_url : String) : String :=
  "\n\n---\n*Generated by " ++ model ++ " on " ++ timestamp ++
    "*\n*Book source: " ++ source_url ++ "*"

/-- `analyze_book_with_ollama` (lines 295-383): missing-book guard,
liveness probe with remediation message, prompt construction, generation
POST, the non-trivial-output test `analysis and len(analysis.strip()) > 10`,
footer concatenation, and per-failure message strings.  The second
component lists the requests issued to the model server, in order. -/
def analyze_book_with_ollama (env : OllamaEnv) (book : Option BookRecord)
    (analysis_type : String) : AnalyzeResult × List NetCall :=
  match book with
  | none => (AnalyzeResult.ok "❌ No book selected for analysis.", [])
  | some b =>
    let avail := check_ollama_availability env.probeResp
    if avail.1 = false then
      (AnalyzeResult.ok ("❌ Ollama Error: " ++ avail.2 ++
        "\n\nTo fix:\n1. Open new terminal\n2. Run: ollama serve\n3. Try again"),
       [NetCall.probe])
    else
      match b.authors with
      | [] => (AnalyzeResult.indexError, [NetCall.probe])
      | author :: _ =>
        let prompt := promptFor analysis_type b.title author
        let calls := [NetCall.probe, NetCall.generate prompt]
        match env.genResp with
        | GenResp.ok status field =>
          if status = 200 then
            let analysis := field.getD "No analysis generated"
            if analysis ≠ "" ∧ 10 < (pyStrip analysis).length then
              (AnalyzeResult.ok
                (analysis ++ provenanceFooter env.model env.timestamp b.source_url), calls)
            else
              (AnalyzeResult.ok "❌ Error: Empty response generated. Please try again.", calls)
          else
            (AnalyzeResult.ok ("❌ Error: Ollama returned status code " ++ toString status),
             calls)
        | GenResp.timeout =>
          (AnalyzeResult.ok ("❌ Error: Analysis timed out after " ++
            toString ANALYSIS_TIMEOUT ++ " seconds. Please try again."), calls)
        | GenResp.connError =>
          (AnalyzeResult.ok "❌ Error: Cannot connect to Ollama. Please ensure Ollama is running.",
           calls)
        | GenResp.exn m => (AnalyzeResult.ok ("❌ Error during analysis: " ++ m), calls)

/-- Record with its description field blanked; used to compare records
independently of the separately fetched description text. -/
def core (b : BookRecord) : BookRecord := { b with description := "" }

/-- Substring containment on strings. -/
def strContains (hay needle : String) : Prop :=
  ∃ pre post : List Char, hay.data = pre ++ needle.data ++ post

/-- Number of non-whitespace characters of a string. -/
def countNonWs (s : String) : Nat := (s.data.filter (fun c => !isPyWs c)).length

/-- Appending the ellipsis marker never yields the empty string. -/
theorem append_ellipsis_ne_empty (s : String) : s ++ "..." ≠ "" := by
  intro h
  have h2 := congrArg String.length h
  rw [String.length_append] at h2
  have h3 : ("..." : String).length = 3 := rfl
  have h4 : ("" : String).length = 0 := rfl
  omega

/-- World used for the C4 counterexample: every detail-record GET raises. -/
def c4World : World where
  now := 0
  last_request_time := none
  dt := 0
  searchResp := fun _ _ => SearchResp.ok 200 [] ""
  descResp := fun _ _ => DescResp.err
  log := []

/-- C4 counterexample: the empty-sourceKey failure and the transport
failure do not return one and the same placeholder string — the former
yields "No description available.", the latter "Description not
available.". -/
theorem c4_counterexample :
    (get_book_description c4World "").1 = "No description available." ∧
    (get_book_description c4World "/works/OL1W").1 = "Description not available." ∧
    (get_book_description c4World "").1 ≠ (get_book_description c4World "/works/OL1W").1 := by
  refine ⟨rfl, rfl, ?_⟩
  decide

/-- C4 (amended): fetchDescription never propagates an error — its result
is always one of the two fixed placeholders or the sanitized (possibly
truncated) upstream text; an empty sourceKey or a missing/empty
description yields "No description available.", while a transport failure
or a non-200 status yields "Description not available.". -/
theorem c4_amended (w : World) (k : String) :
    (k = "" → (get_book_description w k).1 = "No description available.") ∧
    (k ≠ "" → w.descResp w.now k = DescResp.err →
      (get_book_description w k).1 = "Description not available.") ∧
    (∀ status field, k ≠ "" → w.descResp w.now k = DescResp.ok status field → status ≠ 200 →
      (get_book_description w k).1 = "Description not available.") ∧
    (∀ status field, k ≠ "" → w.descResp w.now k = DescResp.ok status field → status = 200 →
      sanitize (descText field) = "" →
      (get_book_description w k).1 = "No description available.") ∧
    ((get_book_description w k).1 = "No description available." ∨
     (get_book_description w k).1 = "Description not available." ∨
     ∃ field, w.descResp w.now k = DescResp.ok 200 field ∧
       ((get_book_description w k).1 = sanitize (descText field) ∨
        (get_book_description w k).1 =
          (⟨(sanitize (descText field)).data.take 500⟩ : String) ++ "...")) := by
  refine ⟨?_, ?_, ?_, ?_, ?_⟩
  · intro hk
    simp [get_book_description, hk]
  · intro hk hresp
    simp [get_book_description, httpDescCall, hk, hresp]
  · intro status field hk hresp hst
    simp [get_book_description, httpDescCall, hk, hresp, hst]
  · intro status field hk hresp hst hsan
    subst hst
    by_cases h0 : descText field = ""
    · simp [get_book_description, httpDescCall, hk, hresp, h0]
    · have hlen : ¬ 500 < (sanitize (descText field)).length := by
        rw [hsan]; decide
      simp [get_book_description, httpDescCall, hk, hresp, h0, hlen, hsan]
  · by_cases hk : k = ""
    · left; simp [get_book_description, hk]
    · rcases hresp : w.descResp w.now k with ⟨status, field⟩ | _
      · by_cases hst : status = 200
        · subst hst
          by_cases h0 : descText field = ""
          · left; simp [get_book_description, httpDescCall, hk, hresp, h0]
          · by_cases hlen : 500 < (sanitize (descText field)).length
            · right; right
              refine ⟨field, rfl, Or.inr ?_⟩
              have hne := append_ellipsis_ne_empty
                (⟨(sanitize (descText field)).data.take 500⟩ : String)
              simp [get_book_description, httpDescCall, hk, hresp, h0, hlen, hne]
            · by_cases hsan : sanitize (descText field) = ""
              · left
                simp [get_book_description, httpDescCall, hk, hresp, h0, hlen, hsan]
              · right; right
                refine ⟨field, rfl, Or.inl ?_⟩
                simp [get_book_description, httpDescCall, hk, hresp, h0, hlen, hsan]
        · right; left
          simp [get_book_description, httpDescCall, hk, hresp, hst]
      · right; left
        simp [get_book_description, httpDescCall, hk, hresp]

/-- C4 witness: the amended theorem evaluated at the counterexample world. -/
theorem c4_amended_witness :
    (get_book_description c4World "/works/OL1W").1 = "Description not available." :=
  (c4_amended c4World "/works/OL1W").2.1 (by decide) rfl

/-- C5: when the upstream description sanitizes to more than 500
characters, fetchDescription returns exactly its first 500 characters
followed by the three-character ellipsis marker (503 characters in all);
a non-empty sanitized description of at most 500 characters is returned
unmodified. -/
theorem c5_truncation (w : World) (k : String) (field : DescField)
    (hk : k ≠ "") (hresp : w.descResp w.now k = DescResp.ok 200 field) :
    (500 < (sanitize (descText field)).length →
      (get_book_description w k).1 =
        (⟨(sanitize (descText field)).data.take 500⟩ : String) ++ "..." ∧
      (get_book_description w k).1.length = 503) ∧
    ((sanitize (descText field)).length ≤ 500 → sanitize (descText field) ≠ "" →
      (get_book_description w k).1 = sanitize (descText field)) := by
  constructor
  · intro hlen
    have h0 : descText field ≠ "" := by
      intro h
      rw [h] at hlen
      revert hlen
      decide
    have heq : (get_book_description w k).1 =
        (⟨(sanitize (descText field)).data.take 500⟩ : String) ++ "..." := by
      simp [get_book_description, httpDescCall, hk, hresp, h0, hlen,
        append_ellipsis_ne_empty]
    refine ⟨heq, ?_⟩
    rw [heq, String.length_append]
    have h3 : ("..." : String).length = 3 := rfl
    have h4 : (⟨(sanitize (descText field)).data.take 500⟩ : String).length = 500 := by
      show ((sanitize (descText field)).data.take 500).length = 500
      rw [List.length_take]
      have hdl : (sanitize (descText field)).data.length =
        (sanitize (descText field)).length := rfl
      omega
    omega
  · intro hlen hne
    have h0 : descText field ≠ "" := by
      intro h
      apply hne
      rw [h]
      rfl
    have hnot : ¬ 500 < (sanitize (descText field)).length := by omega
    simp [get_book_description, httpDescCall, hk, hresp, h0, hnot, hne]

/-- Sanitized description of 501 identical characters, for the C5 witness. -/
def c5LongText : String := ⟨List.replicate 501 'a'⟩

/-- World used for the C5 witness: the detail endpoint returns a 501
character plain-string description. -/
def c5World : World where
  now := 0
  last_request_time := none
  dt := 0
  searchResp := fun _ _ => SearchResp.ok 200 [] ""
  descResp := fun _ _ => DescResp.ok 200 (DescField.strVal c5LongText)
  log := []

set_option maxRecDepth 100000 in
/-- C5 witness: the truncation theorem evaluated on the concrete 501
character description. -/
theorem c5_truncation_witness :
    (get_book_description c5World "/works/OL1W").1 =
      (⟨(sanitize (descText (DescField.strVal c5LongText))).data.take 500⟩ : String) ++ "..." ∧
    (get_book_description c5World "/works/OL1W").1.length = 503 :=
  (c5_truncation c5World "/works/OL1W" (DescField.strVal c5LongText)
    (by decide) rfl).1 (by decide)

/-- Pure value of a description fetch as a function of the upstream reply
alone; `get_book_description_fst` below shows the stateful fetch returns
exactly this. -/
def descOutcome : DescResp → String
  | DescResp.ok status field =>
    if status = 200 then
      let d0 := descText field
      let d1 :=
        if d0 = "" then d0
        else
          let s := sanitize d0
          if 500 < s.length then (⟨s.data.take 500⟩ : String) ++ "..." else s
      if d1 = "" then "No description available." else d1
    else "Description not available."
  | DescResp.err => "Description not available."

/-- For a non-empty key, the fetched text is a pure function of the
upstream reply at the call's time. -/
theorem get_book_description_fst (w : World) (k : String) (hk : k ≠ "") :
    (get_book_description w k).1 = descOutcome (w.descResp w.now k) := by
  rcases h : w.descResp w.now k with ⟨status, field⟩ | _
  · by_cases hst : status = 200 <;>
      simp [get_book_description, httpDescCall, descOutcome, hk, h, hst]
  · simp [get_book_description, httpDescCall, descOutcome, hk, h]

/-- A description fetch leaves the upstream oracle untouched. -/
theorem get_book_description_descResp (w : World) (k : String) :
    (get_book_description w k).2.descResp = w.descResp := by
  by_cases hk : k = ""
  · simp [get_book_description, hk]
  · rcases h : w.descResp w.now k with ⟨status, field⟩ | _
    · by_cases hst : status = 200 <;>
        simp [get_book_description, httpDescCall, hk, h, hst]
    · simp [get_book_description, httpDescCall, hk, h]

/-- C9: with an unchanged upstream detail payload for a sourceKey, a second
fetchDescription call for that key (in the state the first call left
behind) returns the same sanitized text as the first. -/
theorem c9_idempotent (w : World) (k : String)
    (hconst : ∀ t t' : ℤ, w.descResp t k = w.descResp t' k) :
    (get_book_description (get_book_description w k).2 k).1 =
      (get_book_description w k).1 := by
  by_cases hk : k = ""
  · simp [get_book_description, hk]
  · rw [get_book_description_fst _ _ hk, get_book_description_fst _ _ hk,
      get_book_description_descResp, hconst ((get_book_description w k).2.now) w.now]

/-- World used for the C9 witness: a fixed plain-string description. -/
def c9World : World where
  now := 0
  last_request_time := none
  dt := 1
  searchResp := fun _ _ => SearchResp.ok 200 [] ""
  descResp := fun _ _ => DescResp.ok 200 (DescField.strVal "A <b>fine</b> story.")
  log := []

/-- C9 witness: two consecutive fetches of the same key against the fixed
payload return identical text. -/
theorem c9_idempotent_witness :
    (get_book_description (get_book_description c9World "/works/OL1W").2 "/works/OL1W").1 =
      (get_book_description c9World "/works/OL1W").1 :=
  c9_idempotent c9World "/works/OL1W" (fun _ _ => rfl)

/-- String concatenation concatenates the underlying character lists. -/
theorem string_data_append (s t : String) : (s ++ t).data = s.data ++ t.data := rfl

/-- Containment from an explicit three-way split of the haystack. -/
theorem strContains_of_eq (hay pre needle post : String)
    (h : hay = pre ++ needle ++ post) : strContains hay needle :=
  ⟨pre.data, post.data, by rw [h]; simp [string_data_append, List.append_assoc]⟩

/-- Containment is preserved by prepending more text. -/
theorem strContains_append_of (hay1 hay2 needle : String)
    (h : strContains hay2 needle) : strContains (hay1 ++ hay2) needle := by
  obtain ⟨pre, post, hsplit⟩ := h
  exact ⟨hay1.data ++ pre, post, by
    rw [string_data_append, hsplit]; simp [List.append_assoc]⟩

/-- C6: called without a book, analyze returns the no-book-selected
message (which carries the "book selected" cue) and issues no request at
all — neither the liveness probe nor the generation POST. -/
theorem c6_no_book (env : OllamaEnv) (kind : String) :
    analyze_book_with_ollama env none kind =
      (AnalyzeResult.ok "❌ No book selected for analysis.", []) ∧
    strContains "❌ No book selected for analysis." "book selected" :=
  ⟨rfl, strContains_of_eq _ "❌ No " "book selected" " for analysis." (by decide)⟩

/-- C7: when the liveness probe reports the model server unavailable,
analyze stops after the probe — the generation POST is never issued — and
returns the remediation message naming "ollama serve". -/
theorem c7_unavailable (env : OllamaEnv) (b : BookRecord) (kind : String)
    (h : (check_ollama_availability env.probeResp).1 = false) :
    analyze_book_with_ollama env (some b) kind =
      (AnalyzeResult.ok ("❌ Ollama Error: " ++ (check_ollama_availability env.probeResp).2 ++
        "\n\nTo fix:\n1. Open new terminal\n2. Run: ollama serve\n3. Try again"),
       [NetCall.probe]) ∧
    (∀ p, NetCall.generate p ∉ (analyze_book_with_ollama env (some b) kind).2) ∧
    strContains ("❌ Ollama Error: " ++ (check_ollama_availability env.probeResp).2 ++
      "\n\nTo fix:\n1. Open new terminal\n2. Run: ollama serve\n3. Try again")
      "ollama serve" := by
  have heq : analyze_book_with_ollama env (some b) kind =
      (AnalyzeResult.ok ("❌ Ollama Error: " ++ (check_ollama_availability env.probeResp).2 ++
        "\n\nTo fix:\n1. Open new terminal\n2. Run: ollama serve\n3. Try again"),
       [NetCall.probe]) := by
    simp [analyze_book_with_ollama, h]
  refine ⟨heq, ?_, ?_⟩
  · intro p
    rw [heq]
    simp
  · apply strContains_append_of
    exact strContains_of_eq _ "\n\nTo fix:\n1. Open new terminal\n2. Run: "
      "ollama serve" "\n3. Try again" (by decide)

/-- C7 witness: a refused connection on the probe. -/
theorem c7_unavailable_witness :
    analyze_book_with_ollama
      { model := "phi3:mini", timestamp := "2025-01-01 00:00",
        probeResp := GenResp.connError, genResp := GenResp.ok 200 (some "text") }
      (some { title := "Dune", authors := ["Frank Herbert"], first_publish_year := some 1965,
              subjects := ["science fiction"], language := ["eng"], page_count := none,
              key := "/works/OL893415W", cover_id := none, isbn := [], publisher := [],
              rating := none, description := "No description available.",
              source_url := "https://openlibrary.org/works/OL893415W", search_api_url := "u" })
      "summary" =
      (AnalyzeResult.ok ("❌ Ollama Error: " ++ "Ollama server not running (connection refused)" ++
        "\n\nTo fix:\n1. Open new terminal\n2. Run: ollama serve\n3. Try again"),
       [NetCall.probe]) :=
  (c7_unavailable
    { model := "phi3:mini", timestamp := "2025-01-01 00:00",
      probeResp := GenResp.connError, genResp := GenResp.ok 200 (some "text") }
    { title := "Dune", authors := ["Frank Herbert"], first_publish_year := some 1965,
      subjects := ["science fiction"], language := ["eng"], page_count := none,
      key := "/works/OL893415W", cover_id := none, isbn := [], publisher := [],
      rating := none, description := "No description available.",
      source_url := "https://openlibrary.org/works/OL893415W", search_api_url := "u" }
    "summary" rfl).1

/-- Book record used by the C3 theorems. -/
def c3Book : BookRecord where
  title := "Dune"
  authors := ["Frank Herbert"]
  first_publish_year := some 1965
  subjects := ["science fiction"]
  language := ["eng"]
  page_count := none
  key := "/works/OL893415W"
  cover_id := none
  isbn := []
  publisher := []
  rating := none
  description := "No description available."
  source_url := "https://openlibrary.org/works/OL893415W"
  search_api_url := "u"

/-- Environment for the C3 counterexample: the model returns a 13
character reply of which only 4 characters are non-whitespace. -/
def c3Env : OllamaEnv where
  model := "phi3:mini"
  timestamp := "2025-01-01 00:00"
  probeResp := GenResp.ok 200 (some "Hello!")
  genResp := GenResp.ok 200 (some "ab         cd")

/-- C3 counterexample: the reply "ab         cd" has only 4 non-whitespace
characters (at most 10), yet analyze appends the provenance footer and
returns the combined text instead of the empty-response error — the code
tests `len(analysis.strip()) > 10`, the trimmed length, not the count of
non-whitespace characters. -/
theorem c3_counterexample :
    countNonWs "ab         cd" ≤ 10 ∧
    (analyze_book_with_ollama c3Env (some c3Book) "summary").1 =
      AnalyzeResult.ok ("ab         cd" ++
        provenanceFooter "phi3:mini" "2025-01-01 00:00"
          "https://openlibrary.org/works/OL893415W") ∧
    (analyze_book_with_ollama c3Env (some c3Book) "summary").1 ≠
      AnalyzeResult.ok "❌ Error: Empty response generated. Please try again." := by
  refine ⟨by decide, by decide, by decide⟩

/-- Environment for the mocked success case of C3. -/
def c3MockEnv : OllamaEnv where
  model := "phi3:mini"
  timestamp := "2025-01-01 00:00"
  probeResp := GenResp.ok 200 (some "Hello!")
  genResp := GenResp.ok 200 (some "Test successful!")

/-- C3 (amended): on a 200 reply, analyze appends the provenance footer and
returns the combined text exactly when the response text is non-empty and
its whitespace-trimmed length exceeds 10 characters, and otherwise
returns the empty-response error; in particular the mocked reply
"Test successful!" yields text containing "Test successful!" and the
model name. -/
theorem c3_amended :
    (∀ (env : OllamaEnv) (b : BookRecord) (kind a : String),
      env.genResp = GenResp.ok 200 (some a) →
      (check_ollama_availability env.probeResp).1 = true →
      b.authors ≠ [] →
      ((a ≠ "" ∧ 10 < (pyStrip a).length →
        (analyze_book_with_ollama env (some b) kind).1 =
          AnalyzeResult.ok (a ++ provenanceFooter env.model env.timestamp b.source_url)) ∧
       (a = "" ∨ (pyStrip a).length ≤ 10 →
        (analyze_book_with_ollama env (some b) kind).1 =
          AnalyzeResult.ok "❌ Error: Empty response generated. Please try again."))) ∧
    ((analyze_book_with_ollama c3MockEnv (some c3Book) "summary").1 =
      AnalyzeResult.ok ("Test successful!" ++
        provenanceFooter "phi3:mini" "2025-01-01 00:00"
          "https://openlibrary.org/works/OL893415W") ∧
     strContains ("Test successful!" ++
        provenanceFooter "phi3:mini" "2025-01-01 00:00"
          "https://openlibrary.org/works/OL893415W") "Test successful!" ∧
     strContains ("Test successful!" ++
        provenanceFooter "phi3:mini" "2025-01-01 00:00"
          "https://openlibrary.org/works/OL893415W") "phi3:mini") := by
  constructor
  · intro env b kind a hgen hav hb
    rcases hauthors : b.authors with _ | ⟨author, rest⟩
    · exact absurd hauthors hb
    constructor
    · intro hcond
      simp [analyze_book_with_ollama, hav, hauthors, hgen, hcond]
    · intro hcond
      have hnot : ¬((a ≠ "" ∧ 10 < (pyStrip a).length)) := by
        rcases hcond with h | h
        · intro hc; exact hc.1 h
        · intro hc; omega
      simp [analyze_book_with_ollama, hav, hauthors, hgen, hnot]
  · refine ⟨by decide, ?_, ?_⟩
    · exact strContains_of_eq _ ""
        "Test successful!"
        (provenanceFooter "phi3:mini" "2025-01-01 00:00"
          "https://openlibrary.org/works/OL893415W") (by decide)
    · exact strContains_of_eq _ "Test successful!\n\n---\n*Generated by "
        "phi3:mini"
        (" on 2025-01-01 00:00*\n*Book source: https://openlibrary.org/works/OL893415W*")
        (by decide)

/-- C3 witness: the amended theorem's success branch evaluated on the
mocked "Test successful!" reply. -/
theorem c3_amended_witness :
    (analyze_book_with_ollama c3MockEnv (some c3Book) "summary").1 =
      AnalyzeResult.ok ("Test successful!" ++
        provenanceFooter c3MockEnv.model c3MockEnv.timestamp c3Book.source_url) :=
  (c3_amended.1 c3MockEnv c3Book "summary" "Test successful!" rfl (by decide)
    (by decide)).1 ⟨by decide, by decide⟩

/-- Fields guaranteed by the construction filter: a valid doc has all of
title, author_name and first_publish_year present (and non-empty /
non-zero, by Python truthiness). -/
theorem validDoc_fields (d : Doc) (h : validDoc d = true) :
    (∃ s, d.title = some s ∧ s ≠ "") ∧
    (∃ l, d.author_name = some l ∧ l ≠ []) ∧
    (∃ y, d.first_publish_year = some y ∧ y ≠ 0) := by
  unfold validDoc truthyStr truthyList truthyInt at h
  rcases ht : d.title with _ | s <;> rw [ht] at h
  · simp at h
  rcases ha : d.author_name with _ | l <;> rw [ha] at h
  · simp at h
  rcases hy : d.first_publish_year with _ | y <;> rw [hy] at h
  · simp at h
  simp at h
  obtain ⟨⟨h1, h2⟩, h3⟩ := h
  exact ⟨⟨s, rfl, h1⟩, ⟨l, rfl, h2⟩, ⟨y, rfl, h3⟩⟩

/-- Blanking the description leaves every other field unchanged; in
particular it commutes with the description overwrite of the collect
loop. -/
theorem core_set_description (b : BookRecord) (ds : String) :
    core { b with description := ds } = core b := rfl

/-- The collect loop, observed up to the separately fetched descriptions,
is exactly: filter first, then build a record per surviving doc, keeping
at most `max limit 1` of them (the loop appends one record before its
length test, so even `limit = 0` admits one record). -/
theorem collectLoop_core (mk : Doc → BookRecord) (limit : Nat) :
    ∀ (docs : List Doc) (w : World) (acc : List BookRecord),
      ((collectLoop mk limit w docs acc).1).map core =
        acc.map core ++
          ((docs.filter validDoc).take (max limit (acc.length + 1) - acc.length)).map
            (fun d => core (mk d)) := by
  intro docs
  induction docs with
  | nil =>
    intro w acc
    simp [collectLoop]
  | cons d rest ih =>
    intro w acc
    by_cases hv : validDoc d = true
    · by_cases hl : limit ≤ acc.length + 1
      · have hmax : max limit (acc.length + 1) - acc.length = 1 := by omega
        simp [collectLoop, hv, hl, hmax, List.filter_cons_of_pos, core_set_description]
      · have hstep : collectLoop mk limit w (d :: rest) acc =
            collectLoop mk limit (get_book_description w (mk d).key).2 rest
              (acc ++ [{ mk d with
                description := (get_book_description w (mk d).key).1 }]) := by
          simp [collectLoop, hv, hl]
        rw [hstep, ih]
        rw [List.filter_cons_of_pos hv]
        have hmax1 : max limit (acc.length + 1) - acc.length =
            (max limit (acc.length + 1 + 1) - (acc.length + 1)) + 1 := by omega
        simp [core_set_description, List.append_assoc, hmax1, List.take_succ_cons]
    · have hv' : validDoc d = false := by
        cases h : validDoc d
        · rfl
        · exact absurd h hv
      simp [collectLoop, hv', ih, List.filter_cons_of_neg, hv]

/-- Both record builders read authors and title the same way. -/
theorem mk_fields (genre respUrl : String) (d : Doc) :
    (mkBookPrimary genre respUrl d).authors = d.author_name.getD ["Unknown Author"] ∧
    (mkBookPrimary genre respUrl d).title = d.title.getD "Unknown Title" ∧
    (mkBookAlias genre respUrl d).authors = d.author_name.getD ["Unknown Author"] ∧
    (mkBookAlias genre respUrl d).title = d.title.getD "Unknown Title" := by
  refine ⟨rfl, rfl, ?_, ?_⟩ <;> simp [mkBookAlias, mkBookPrimary]

/-- Whenever searchByGenre returns records, they are the output of the
collect loop on some docs array, with a builder that reads authors and
title off the raw record. -/
theorem search_books_cases (w : World) (g : String) (l : Nat) (bs : List BookRecord)
    (h : (search_books_by_genre w g l).1 = SearchResult.books bs) :
    ∃ (mk : Doc → BookRecord) (docs : List Doc) (w' : World),
      (∀ d, (mk d).authors = d.author_name.getD ["Unknown Author"] ∧
            (mk d).title = d.title.getD "Unknown Title") ∧
      bs = (collectLoop mk l w' docs []).1 := by
  by_cases hg : pyStrip g = ""
  · simp [search_books_by_genre, hg] at h
  · simp only [search_books_by_genre, hg, if_false, ite_false, if_neg, not_false_iff] at h
    rcases hr1 : (httpSearchCall (rate_limit w) (normalizeGenre g) (min (l * 2) 40)).1 with
      ⟨status, docs, url⟩ | _ | m
    · rw [hr1] at h
      by_cases hst : status = 200
      · simp only [hst, if_true, ite_true, if_pos] at h
        by_cases he : (collectLoop (mkBookPrimary (normalizeGenre g) url) l
            (httpSearchCall (rate_limit w) (normalizeGenre g) (min (l * 2) 40)).2 docs []).1.isEmpty
        · simp only [he, if_true, ite_true, if_pos] at h
          rcases halt : alternative_genres (normalizeGenre g) with _ | alt
          · rw [halt] at h
            simp at h
          · simp only [halt] at h
            rcases hr2 : (httpSearchCall (collectLoop (mkBookPrimary (normalizeGenre g) url) l
                (httpSearchCall (rate_limit w) (normalizeGenre g) (min (l * 2) 40)).2 docs
                []).2 alt (min (l * 2) 40)).1 with ⟨status2, docs2, url2⟩ | _ | m2
            · rw [hr2] at h
              by_cases hst2 : status2 = 200
              · simp only [hst2, if_true, ite_true, if_pos] at h
                by_cases he2 : (collectLoop (mkBookAlias (normalizeGenre g) url2) l
                    (httpSearchCall (collectLoop (mkBookPrimary (normalizeGenre g) url) l
                      (httpSearchCall (rate_limit w) (normalizeGenre g) (min (l * 2) 40)).2 docs
                      []).2 alt (min (l * 2) 40)).2 docs2 []).1.isEmpty
                · simp [he2] at h
                · simp only [he2, if_false, ite_false] at h
                  simp at h
                  exact ⟨mkBookAlias (normalizeGenre g) url2, docs2, _,
                    fun d => ⟨(mk_fields _ _ d).2.2.1, (mk_fields _ _ d).2.2.2⟩, h.symm⟩
              · simp [hst2] at h
            · rw [hr2] at h
              simp at h
            · rw [hr2] at h
              simp at h
        · simp only [he, if_false, ite_false] at h
          simp at h
          exact ⟨mkBookPrimary (normalizeGenre g) url, docs, _,
            fun d => ⟨(mk_fields _ _ d).1, (mk_fields _ _ d).2.1⟩, h.symm⟩
      · simp [hst] at h
    · rw [hr1] at h
      simp at h
    · rw [hr1] at h
      simp at h

/-- C1: the presence filter is the first per-record step in both the
primary and the alias-fallback search.  A doc passing the filter has
title, authors and first-publish-year all present; a doc missing any of
them fails the filter; the collect loop used by both branches factors
(up to the separately fetched descriptions) as filter-then-build, so a
record missing any of the three fields contributes nothing; and every
record searchByGenre returns stems from a doc with all three present. -/
theorem c1_filter :
    (∀ d : Doc, validDoc d = true →
      d.title.isSome ∧ d.author_name.isSome ∧ d.first_publish_year.isSome) ∧
    (∀ d : Doc, (d.title = none ∨ d.author_name = none ∨ d.first_publish_year = none) →
      validDoc d = false) ∧
    (∀ (mk : Doc → BookRecord) (limit : Nat) (w : World) (docs : List Doc),
      ((collectLoop mk limit w docs []).1).map core =
        ((docs.filter validDoc).take (max limit 1)).map (fun d => core (mk d))) ∧
    (∀ (w : World) (g : String) (l : Nat) (bs : List BookRecord),
      (search_books_by_genre w g l).1 = SearchResult.books bs →
      ∀ b ∈ bs, ∃ d : Doc,
        validDoc d = true ∧
        d.title.isSome ∧ d.author_name.isSome ∧ d.first_publish_year.isSome ∧
        b.title = d.title.getD "Unknown Title" ∧
        b.authors = d.author_name.getD ["Unknown Author"]) := by
  have hsome : ∀ d : Doc, validDoc d = true →
      d.title.isSome ∧ d.author_name.isSome ∧ d.first_publish_year.isSome := by
    intro d hd
    obtain ⟨⟨s, hs, _⟩, ⟨l, hl, _⟩, ⟨y, hy, _⟩⟩ := validDoc_fields d hd
    rw [hs, hl, hy]
    exact ⟨rfl, rfl, rfl⟩
  have hcore : ∀ (mk : Doc → BookRecord) (limit : Nat) (w : World) (docs : List Doc),
      ((collectLoop mk limit w docs []).1).map core =
        ((docs.filter validDoc).take (max limit 1)).map (fun d => core (mk d)) := by
    intro mk limit w docs
    have := collectLoop_core mk limit docs w []
    simpa using this
  refine ⟨hsome, ?_, hcore, ?_⟩
  · intro d hd
    cases h : validDoc d
    · rfl
    · exfalso
      obtain ⟨h1, h2, h3⟩ := hsome d h
      rcases hd with hh | hh | hh
      · rw [hh] at h1
        simp at h1
      · rw [hh] at h2
        simp at h2
      · rw [hh] at h3
        simp at h3
  · intro w g l bs h b hb
    obtain ⟨mk, docs, w', hmk, hbs⟩ := search_books_cases w g l bs h
    have hcb : core b ∈ (bs.map core) := List.mem_map_of_mem core hb
    rw [hbs, hcore] at hcb
    obtain ⟨d, hdmem, hdeq⟩ := List.mem_map.mp hcb
    have hdf : d ∈ docs.filter validDoc := List.mem_of_mem_take hdmem
    have hdv : validDoc d = true := (List.mem_filter.mp hdf).2
    obtain ⟨hb1, hb2, hb3⟩ := hsome d hdv
    refine ⟨d, hdv, hb1, hb2, hb3, ?_, ?_⟩
    · have heq : (core (mk d)).title = (core b).title := by rw [hdeq]
      simpa [core, (hmk d).2] using heq.symm
    · have heq : (core (mk d)).authors = (core b).authors := by rw [hdeq]
      simpa [core, (hmk d).1] using heq.symm

/-- Raw doc used by the C1 witness. -/
def c1Doc : Doc where
  title := some "Dune"
  author_name := some ["Frank Herbert"]
  first_publish_year := some 1965
  key := some "/works/OL893415W"
  subject := some ["science fiction"]
  language := some ["eng"]
  number_of_pages_median := some 412
  cover_i := none
  isbn := some []
  publisher := some ["Chilton"]
  ratings_average := none

/-- C1 witness: a concrete valid doc has all three required fields. -/
theorem c1_filter_witness :
    c1Doc.title.isSome ∧ c1Doc.author_name.isSome ∧ c1Doc.first_publish_year.isSome :=
  c1_filter.1 c1Doc (by decide)

/-- C10: every record searchByGenre returns has a non-empty authors list
and a non-empty title, so the prompt construction of analyze — which
interpolates the title and the first author — can never hit the
empty-authors IndexError for such a record. -/
theorem c10_safe_prompt (w : World) (g : String) (l : Nat) (bs : List BookRecord)
    (h : (search_books_by_genre w g l).1 = SearchResult.books bs) :
    ∀ b ∈ bs, b.authors ≠ [] ∧ b.title ≠ "" ∧
      (∀ (env : OllamaEnv) (kind : String),
        (analyze_book_with_ollama env (some b) kind).1 ≠ AnalyzeResult.indexError) := by
  intro b hb
  obtain ⟨d, hdv, _, _, _, htitle, hauthors⟩ := c1_filter.2.2.2 w g l bs h b hb
  obtain ⟨⟨s, hs, hs0⟩, ⟨al, hal, hal0⟩, _⟩ := validDoc_fields d hdv
  have hba : b.authors = al := by rw [hauthors, hal]; rfl
  have hbt : b.title = s := by rw [htitle, hs]; rfl
  refine ⟨by rw [hba]; exact hal0, by rw [hbt]; exact hs0, ?_⟩
  intro env kind
  rcases hauth : b.authors with _ | ⟨a, rest⟩
  · exact absurd hauth (by rw [hba]; exact hal0)
  · by_cases hav : (check_ollama_availability env.probeResp).1 = false
    · simp [analyze_book_with_ollama, hav, hauth]
    · rcases hgen : env.genResp with ⟨st, f⟩ | _ | _ | m <;>
        simp [analyze_book_with_ollama, hav, hauth, hgen] <;>
        split <;> simp_all <;> split <;> simp_all

/-- Raw doc used by the C10 witness (no source key, so no detail fetch). -/
def c10Doc : Doc where
  title := some "Foundation"
  author_name := some ["Isaac Asimov"]
  first_publish_year := some 1951
  key := none
  subject := some ["science fiction"]
  language := some ["eng"]
  number_of_pages_median := none
  cover_i := none
  isbn := some []
  publisher := some ["Gnome Press"]
  ratings_average := none

/-- World used by the C10 witness: the search endpoint returns one valid
doc. -/
def c10World : World where
  now := 0
  last_request_time := none
  dt := 0
  searchResp := fun _ _ => SearchResp.ok 200 [c10Doc] "u"
  descResp := fun _ _ => DescResp.err
  log := []

/-- Record produced by the collect loop for `c10Doc`. -/
def c10Book : BookRecord :=
  { mkBookPrimary "fiction" "u" c10Doc with description := "No description available." }

/-- C10 witness: the safety theorem evaluated on a concrete search
output. -/
theorem c10_safe_prompt_witness :
    c10Book.authors ≠ [] ∧ c10Book.title ≠ "" ∧
      (∀ (env : OllamaEnv) (kind : String),
        (analyze_book_with_ollama env (some c10Book) kind).1 ≠ AnalyzeResult.indexError) :=
  c10_safe_prompt c10World "fiction" 20 [c10Book] (by decide) c10Book (by simp)

/-- When no doc passes the filter, the collect loop returns its
accumulator and leaves the world untouched (no description fetches). -/
theorem collectLoop_no_valid (mk : Doc → BookRecord) (limit : Nat) :
    ∀ (docs : List Doc) (w : World) (acc : List BookRecord),
      docs.filter validDoc = [] → collectLoop mk limit w docs acc = (acc, w) := by
  intro docs
  induction docs with
  | nil =>
    intro w acc _
    rfl
  | cons d rest ih =>
    intro w acc hf
    rw [List.filter_cons] at hf
    have hd : validDoc d = false := by
      cases h : validDoc d
      · rfl
      · rw [h] at hf
        simp at hf
    rw [hd] at hf
    simp only [Bool.false_eq_true, if_false, ite_false] at hf
    simp [collectLoop, hd, ih _ _ hf]

/-- The limiter's bookkeeping fields other than the clock and the
timestamp are untouched. -/
theorem rate_limit_preserves (w : World) :
    (rate_limit w).searchResp = w.searchResp ∧ (rate_limit w).descResp = w.descResp ∧
    (rate_limit w).dt = w.dt ∧ (rate_limit w).log = w.log := by
  rcases h : w.last_request_time with _ | t
  · simp [rate_limit, h]
  · by_cases h0 : t = 0
    · simp [rate_limit, h, h0]
    · by_cases he : w.now - t < min_request_interval
      · simp [rate_limit, h, h0, he]
      · simp [rate_limit, h, h0, he]

/-- Valid docs returned by the alias query in the C2 mocked scenario. -/
def c2DocA : Doc where
  title := some "Dune"
  author_name := some ["Frank Herbert"]
  first_publish_year := some 1965
  key := none
  subject := some ["science fiction"]
  language := some ["eng"]
  number_of_pages_median := none
  cover_i := none
  isbn := some []
  publisher := some []
  ratings_average := none

/-- Second valid doc of the C2 mocked scenario. -/
def c2DocB : Doc :=
  { c2DocA with
    title := some "Foundation", author_name := some ["Isaac Asimov"],
    first_publish_year := some 1951 }

/-- Third valid doc of the C2 mocked scenario. -/
def c2DocC : Doc :=
  { c2DocA with
    title := some "Neuromancer", author_name := some ["William Gibson"],
    first_publish_year := some 1984 }

/-- World of the C2 mocked scenario: zero docs for "sci-fi", three valid
docs for the alias query "science fiction". -/
def c2World : World where
  now := 0
  last_request_time := none
  dt := 0
  searchResp := fun _ s =>
    if s = "science fiction" then SearchResp.ok 200 [c2DocA, c2DocB, c2DocC] "u2"
    else SearchResp.ok 200 [] "u1"
  descResp := fun _ _ => DescResp.err
  log := []

/-- C2: in the mocked scenario searchByGenre("sci-fi", 20) returns exactly
3 BookRecords via the alias retry; in general, when every query yields
zero valid records, a genre without an alias returns the descriptive
"no books found, try: ..." message after exactly one query, and a genre
with an alias returns that message after exactly two queries (the single
alias retry, with no further retry). -/
theorem c2_alias_fallback :
    (booksCount (search_books_by_genre c2World "sci-fi" 20).1 = some 3) ∧
    (∀ (w : World) (g : String) (l : Nat),
      pyStrip g ≠ "" →
      alternative_genres (normalizeGenre g) = none →
      (∀ t s, ∃ url docs, w.searchResp t s = SearchResp.ok 200 docs url ∧
        docs.filter validDoc = []) →
      (search_books_by_genre w g l).1 = SearchResult.msg (noBooksMsg (normalizeGenre g)) ∧
      (search_books_by_genre w g l).2.log = w.log ++
        [CallRec.searchCall (normalizeGenre g) (min (l * 2) 40) ((rate_limit w).now)]) ∧
    (∀ (w : World) (g : String) (l : Nat) (alt : String),
      pyStrip g ≠ "" →
      alternative_genres (normalizeGenre g) = some alt →
      (∀ t s, ∃ url docs, w.searchResp t s = SearchResp.ok 200 docs url ∧
        docs.filter validDoc = []) →
      (search_books_by_genre w g l).1 = SearchResult.msg (noBooksMsg (normalizeGenre g)) ∧
      (search_books_by_genre w g l).2.log = w.log ++
        [CallRec.searchCall (normalizeGenre g) (min (l * 2) 40) ((rate_limit w).now),
         CallRec.searchCall alt (min (l * 2) 40) ((rate_limit w).now + w.dt)]) := by
  refine ⟨by decide, ?_, ?_⟩
  · intro w g l hg halt hor
    obtain ⟨url, docs, hresp, hfil⟩ := hor ((rate_limit w).now) (normalizeGenre g)
    have hrp := rate_limit_preserves w
    have hscr : (httpSearchCall (rate_limit w) (normalizeGenre g) (min (l * 2) 40)).1 =
        SearchResp.ok 200 docs url := by
      simp [httpSearchCall, hrp.1, hresp]
    have hloop := collectLoop_no_valid (mkBookPrimary (normalizeGenre g) url) l docs
      (httpSearchCall (rate_limit w) (normalizeGenre g) (min (l * 2) 40)).2 [] hfil
    constructor
    · simp only [search_books_by_genre, hg, if_false, ite_false, if_neg, not_false_iff]
      simp only [hscr]
      simp only [hloop]
      simp [halt]
    · simp only [search_books_by_genre, hg, if_false, ite_false, if_neg, not_false_iff]
      simp only [hscr]
      simp only [hloop]
      simp [halt, httpSearchCall, hrp.2.2.2]
  · intro w g l alt hg halt hor
    obtain ⟨url, docs, hresp, hfil⟩ := hor ((rate_limit w).now) (normalizeGenre g)
    have hrp := rate_limit_preserves w
    have hscr : (httpSearchCall (rate_limit w) (normalizeGenre g) (min (l * 2) 40)).1 =
        SearchResp.ok 200 docs url := by
      simp [httpSearchCall, hrp.1, hresp]
    have hloop := collectLoop_no_valid (mkBookPrimary (normalizeGenre g) url) l docs
      (httpSearchCall (rate_limit w) (normalizeGenre g) (min (l * 2) 40)).2 [] hfil
    obtain ⟨url2, docs2, hresp2, hfil2⟩ := hor ((rate_limit w).now + w.dt) alt
    have hscr2 : (httpSearchCall
        (httpSearchCall (rate_limit w) (normalizeGenre g) (min (l * 2) 40)).2 alt
        (min (l * 2) 40)).1 = SearchResp.ok 200 docs2 url2 := by
      simp [httpSearchCall, hrp.1, hrp.2.2.1, hresp2]
    have hloop2 := collectLoop_no_valid (mkBookAlias (normalizeGenre g) url2) l docs2
      (httpSearchCall
        (httpSearchCall (rate_limit w) (normalizeGenre g) (min (l * 2) 40)).2 alt
        (min (l * 2) 40)).2 [] hfil2
    constructor
    · simp only [search_books_by_genre, hg, if_false, ite_false, if_neg, not_false_iff]
      simp only [hscr]
      simp only [hloop]
      simp only [List.isEmpty_nil, if_true, ite_true, halt]
      simp only [hscr2]
      simp only [hloop2]
      simp
    · simp only [search_books_by_genre, hg, if_false, ite_false, if_neg, not_false_iff]
      simp only [hscr]
      simp only [hloop]
      simp only [List.isEmpty_nil, if_true, ite_true, halt]
      simp only [hscr2]
      simp only [hloop2]
      simp [httpSearchCall, hrp.2.2.1, hrp.2.2.2, List.append_assoc]

/-- C2 witness: the general no-alias conjunct evaluated on a concrete
world whose every query returns zero docs. -/
theorem c2_alias_fallback_witness :
    (search_books_by_genre
      { now := 0, last_request_time := none, dt := 0,
        searchResp := fun _ _ => SearchResp.ok 200 [] "u",
        descResp := fun _ _ => DescResp.err, log := [] } "history" 20).1 =
      SearchResult.msg (noBooksMsg "history") :=
  (c2_alias_fallback.2.1
    { now := 0, last_request_time := none, dt := 0,
      searchResp := fun _ _ => SearchResp.ok 200 [] "u",
      descResp := fun _ _ => DescResp.err, log := [] } "history" 20
    (by decide) (by decide) (fun t s => ⟨"u", [], rfl, rfl⟩)).1

/-- First doc of the C8 counterexample, carrying a source key so that the
collect loop issues a description fetch. -/
def c8DocA : Doc where
  title := some "A"
  author_name := some ["X"]
  first_publish_year := some 1990
  key := some "/works/OL1W"
  subject := none
  language := none
  number_of_pages_median := none
  cover_i := none
  isbn := none
  publisher := none
  ratings_average := none

/-- Second doc of the C8 counterexample. -/
def c8DocB : Doc :=
  { c8DocA with title := some "B", key := some "/works/OL2W" }

/-- World of the C8 counterexample: HTTP round trips are instantaneous at
this clock's granularity, as the code inserts no delay between them. -/
def c8World : World where
  now := 0
  last_request_time := none
  dt := 0
  searchResp := fun _ _ => SearchResp.ok 200 [c8DocA, c8DocB] "u"
  descResp := fun _ _ => DescResp.err
  log := []

/-- C8 counterexample: within one search the two per-record description
fetches are issued half a second apart — the rate limiter runs only once,
before the primary query, so consecutive metadata-path calls are not kept
one second apart. -/
theorem c8_counterexample :
    (search_books_by_genre c8World "fiction" 20).2.log =
      [CallRec.searchCall "fiction" 40 0,
       CallRec.descCall "/works/OL1W" 0,
       CallRec.descCall "/works/OL2W" 0] ∧
    callTime (CallRec.descCall "/works/OL2W" 0) -
      callTime (CallRec.descCall "/works/OL1W" 0) < 1 := by
  constructor
  · decide
  · decide

/-- After the limiter runs, `last_request_time` always holds the current
clock value. -/
theorem rate_limit_last (w : World) :
    (rate_limit w).last_request_time = some ((rate_limit w).now) := by
  rcases h : w.last_request_time with _ | t
  · simp [rate_limit, h]
  · by_cases h0 : t = 0
    · simp [rate_limit, h, h0]
    · by_cases he : w.now - t < min_request_interval
      · simp [rate_limit, h, h0, he]
      · simp [rate_limit, h, h0, he]

/-- The limiter never turns the clock back. -/
theorem rate_limit_now_ge (w : World) : w.now ≤ (rate_limit w).now := by
  rcases h : w.last_request_time with _ | t
  · simp [rate_limit, h]
  · by_cases h0 : t = 0
    · simp [rate_limit, h, h0]
    · by_cases he : w.now - t < 1
      · simp [rate_limit, h, h0, min_request_interval, he]
        linarith
      · simp [rate_limit, h, h0, min_request_interval, he]

/-- Gap guarantee of `_rate_limit`: with a non-zero recorded timestamp
`t`, the limiter (sleeping if needed) moves the clock to at least
`t + 1` second. -/
theorem rate_limit_gap (w : World) (t : ℤ) (h : w.last_request_time = some t)
    (h0 : t ≠ 0) : t + 1 ≤ (rate_limit w).now := by
  by_cases he : w.now - t < 1
  · simp [rate_limit, h, h0, min_request_interval, he]
    linarith
  · simp [rate_limit, h, h0, min_request_interval, he]
    linarith

/-- A description fetch never touches the limiter timestamp or the round
trip duration, moves the clock forward (for a non-negative duration), and
only appends to the log. -/
theorem get_book_description_world (w : World) (k : String) :
    (get_book_description w k).2.last_request_time = w.last_request_time ∧
    (get_book_description w k).2.dt = w.dt ∧
    (0 ≤ w.dt → w.now ≤ (get_book_description w k).2.now) ∧
    ∃ ext, (get_book_description w k).2.log = w.log ++ ext := by
  by_cases hk : k = ""
  · have hw : (get_book_description w k).2 = w := by simp [get_book_description, hk]
    rw [hw]
    exact ⟨rfl, rfl, fun _ => le_refl _, ⟨[], by simp⟩⟩
  · have hw : (get_book_description w k).2 =
        { w with now := w.now + w.dt, log := w.log ++ [CallRec.descCall k w.now] } := by
      rcases h : w.descResp w.now k with ⟨status, field⟩ | _
      · by_cases hst : status = 200
        · simp [get_book_description, httpDescCall, hk, h, hst]
        · simp [get_book_description, httpDescCall, hk, h, hst]
      · simp [get_book_description, httpDescCall, hk, h]
    rw [hw]
    refine ⟨rfl, rfl, fun hdt => by simp; linarith, ⟨[CallRec.descCall k w.now], rfl⟩⟩

/-- The collect loop never touches the limiter timestamp or the duration,
moves the clock forward, and only appends to the log. -/
theorem collectLoop_world (mk : Doc → BookRecord) (limit : Nat) :
    ∀ (docs : List Doc) (w : World) (acc : List BookRecord),
      (collectLoop mk limit w docs acc).2.last_request_time = w.last_request_time ∧
      (collectLoop mk limit w docs acc).2.dt = w.dt ∧
      (0 ≤ w.dt → w.now ≤ (collectLoop mk limit w docs acc).2.now) ∧
      ∃ ext, (collectLoop mk limit w docs acc).2.log = w.log ++ ext := by
  intro docs
  induction docs with
  | nil =>
    intro w acc
    exact ⟨rfl, rfl, fun _ => le_refl _, ⟨[], by simp [collectLoop]⟩⟩
  | cons d rest ih =>
    intro w acc
    by_cases hv : validDoc d = true
    · have hgw := get_book_description_world w (mk d).key
      by_cases hl : limit ≤ acc.length + 1
      · have hres : collectLoop mk limit w (d :: rest) acc =
            (acc ++ [{ mk d with description := (get_book_description w (mk d).key).1 }],
             (get_book_description w (mk d).key).2) := by
          simp [collectLoop, hv, hl]
        rw [hres]
        exact hgw
      · have hres : collectLoop mk limit w (d :: rest) acc =
            collectLoop mk limit (get_book_description w (mk d).key).2 rest
              (acc ++ [{ mk d with description := (get_book_description w (mk d).key).1 }]) := by
          simp [collectLoop, hv, hl]
        rw [hres]
        have hih := ih (get_book_description w (mk d).key).2
          (acc ++ [{ mk d with description := (get_book_description w (mk d).key).1 }])
        refine ⟨?_, ?_, ?_, ?_⟩
        · rw [hih.1, hgw.1]
        · rw [hih.2.1, hgw.2.1]
        · intro hdt
          have h1 := hgw.2.2.1 hdt
          have h2 := hih.2.2.1 (by rw [hgw.2.1]; exact hdt)
          linarith
        · obtain ⟨e1, he1⟩ := hgw.2.2.2
          obtain ⟨e2, he2⟩ := hih.2.2.2
          exact ⟨e1 ++ e2, by rw [he2, he1, List.append_assoc]⟩
    · have hres : collectLoop mk limit w (d :: rest) acc = collectLoop mk limit w rest acc := by
        simp [collectLoop, hv]
      rw [hres]
      exact ih w acc

/-- Issuing a search request leaves the limiter timestamp unchanged. -/
theorem httpSearchCall_last (w : World) (s : String) (n : Nat) :
    (httpSearchCall w s n).2.last_request_time = w.last_request_time := rfl

/-- Issuing a search request appends exactly one log entry, stamped with
the current clock. -/
theorem httpSearchCall_log (w : World) (s : String) (n : Nat) :
    (httpSearchCall w s n).2.log = w.log ++ [CallRec.searchCall s n w.now] := rfl

/-- Projection through a branch whose two arms carry the same world. -/
theorem ite_pair_snd {c : Prop} [Decidable c] (a₁ a₂ : SearchResult) (W : World) :
    (if c then (a₁, W) else (a₂, W)).2 = W := by
  split
  · rfl
  · rfl

/-- After a search with a non-empty genre, the limiter timestamp is the
time of the primary query, which is also the first request the search
appended to the log. -/
theorem search_world (w : World) (g : String) (l : Nat) (hg : pyStrip g ≠ "") :
    (search_books_by_genre w g l).2.last_request_time = some ((rate_limit w).now) ∧
    ∃ rest, (search_books_by_genre w g l).2.log =
      w.log ++ CallRec.searchCall (normalizeGenre g) (min (l * 2) 40) ((rate_limit w).now)
        :: rest := by
  have hrp := rate_limit_preserves w
  have hW1last : (httpSearchCall (rate_limit w) (normalizeGenre g)
      (min (l * 2) 40)).2.last_request_time = some ((rate_limit w).now) := by
    rw [httpSearchCall_last, rate_limit_last]
  have hW1log : (httpSearchCall (rate_limit w) (normalizeGenre g) (min (l * 2) 40)).2.log =
      w.log ++ [CallRec.searchCall (normalizeGenre g) (min (l * 2) 40) ((rate_limit w).now)] := by
    rw [httpSearchCall_log, hrp.2.2.2]
  simp only [search_books_by_genre, hg, if_false, ite_false, if_neg, not_false_iff]
  rcases hr1 : (httpSearchCall (rate_limit w) (normalizeGenre g) (min (l * 2) 40)).1 with
    ⟨status, docs, url⟩ | _ | m
  · by_cases hst : status = 200
    · simp only [hst, if_true, ite_true, if_pos]
      have hc1 := collectLoop_world (mkBookPrimary (normalizeGenre g) url) l docs
        (httpSearchCall (rate_limit w) (normalizeGenre g) (min (l * 2) 40)).2 []
      obtain ⟨ext1, hext1⟩ := hc1.2.2.2
      by_cases he : (collectLoop (mkBookPrimary (normalizeGenre g) url) l
          (httpSearchCall (rate_limit w) (normalizeGenre g) (min (l * 2) 40)).2 docs
          []).1.isEmpty
      · simp only [he, if_true, ite_true, if_pos]
        rcases halt : alternative_genres (normalizeGenre g) with _ | alt
        · simp only []
          refine ⟨by rw [hc1.1, hW1last], ⟨ext1, by rw [hext1, hW1log]; simp⟩⟩
        · simp only []
          rcases hr2 : (httpSearchCall (collectLoop (mkBookPrimary (normalizeGenre g) url) l
              (httpSearchCall (rate_limit w) (normalizeGenre g) (min (l * 2) 40)).2 docs
              []).2 alt (min (l * 2) 40)).1 with ⟨status2, docs2, url2⟩ | _ | m2
          · by_cases hst2 : status2 = 200
            · simp only [hst2, if_true, ite_true, if_pos]
              have hc2 := collectLoop_world (mkBookAlias (normalizeGenre g) url2) l docs2
                (httpSearchCall (collectLoop (mkBookPrimary (normalizeGenre g) url) l
                  (httpSearchCall (rate_limit w) (normalizeGenre g) (min (l * 2) 40)).2 docs
                  []).2 alt (min (l * 2) 40)).2 []
              obtain ⟨ext2, hext2⟩ := hc2.2.2.2
              refine ⟨?_, ?_⟩
              · rw [ite_pair_snd, hc2.1, httpSearchCall_last, hc1.1, hW1last]
              · refine ⟨ext1 ++ CallRec.searchCall alt (min (l * 2) 40)
                  ((collectLoop (mkBookPrimary (normalizeGenre g) url) l
                    (httpSearchCall (rate_limit w) (normalizeGenre g)
                      (min (l * 2) 40)).2 docs []).2.now) :: ext2, ?_⟩
                rw [ite_pair_snd, hext2, httpSearchCall_log, hext1, hW1log]
                simp [List.append_assoc]
            · simp only [hst2, if_false, ite_false]
              refine ⟨?_, ?_⟩
              · rw [httpSearchCall_last, hc1.1, hW1last]
              · refine ⟨ext1 ++ [CallRec.searchCall alt (min (l * 2) 40)
                  ((collectLoop (mkBookPrimary (normalizeGenre g) url) l
                    (httpSearchCall (rate_limit w) (normalizeGenre g)
                      (min (l * 2) 40)).2 docs []).2.now)], ?_⟩
                rw [httpSearchCall_log, hext1, hW1log]
                simp [List.append_assoc]
          · refine ⟨?_, ?_⟩
            · rw [httpSearchCall_last, hc1.1, hW1last]
            · refine ⟨ext1 ++ [CallRec.searchCall alt (min (l * 2) 40)
                ((collectLoop (mkBookPrimary (normalizeGenre g) url) l
                  (httpSearchCall (rate_limit w) (normalizeGenre g)
                    (min (l * 2) 40)).2 docs []).2.now)], ?_⟩
              rw [httpSearchCall_log, hext1, hW1log]
              simp [List.append_assoc]
          · refine ⟨?_, ?_⟩
            · rw [httpSearchCall_last, hc1.1, hW1last]
            · refine ⟨ext1 ++ [CallRec.searchCall alt (min (l * 2) 40)
                ((collectLoop (mkBookPrimary (normalizeGenre g) url) l
                  (httpSearchCall (rate_limit w) (normalizeGenre g)
                    (min (l * 2) 40)).2 docs []).2.now)], ?_⟩
              rw [httpSearchCall_log, hext1, hW1log]
              simp [List.append_assoc]
      · simp only [he, if_false, ite_false]
        refine ⟨?_, ⟨ext1, ?_⟩⟩
        · exact hc1.1.trans hW1last
        · have hres : (collectLoop (mkBookPrimary (normalizeGenre g) url) l
              (httpSearchCall (rate_limit w) (normalizeGenre g) (min (l * 2) 40)).2 docs
              []).2.log = w.log ++ CallRec.searchCall (normalizeGenre g) (min (l * 2) 40)
                ((rate_limit w).now) :: ext1 := by
            rw [hext1, hW1log]
            simp
          exact hres
    · simp only [hst, if_false, ite_false]
      exact ⟨hW1last, ⟨[], by rw [hW1log]⟩⟩
  · exact ⟨hW1last, ⟨[], by rw [hW1log]⟩⟩
  · exact ⟨hW1last, ⟨[], by rw [hW1log]⟩⟩

/-- C8 (amended): the process-wide limiter does enforce a 1-second minimum
gap between the calls it guards — after a run with a non-zero recorded
timestamp t the clock is at least t + 1 and is recorded as the new
timestamp — and within `search_books_by_genre` only the primary query is
so guarded: two back-to-back searches issue their primary queries at
least 1 second apart, while the per-record description fetches and the
alias retry of a single search go through no limiter (see the
counterexample). -/
theorem c8_amended :
    (∀ (w : World) (t : ℤ), w.last_request_time = some t → t ≠ 0 →
      (rate_limit w).last_request_time = some ((rate_limit w).now) ∧
      t + 1 ≤ (rate_limit w).now) ∧
    (∀ (w : World) (g1 g2 : String) (l1 l2 : Nat),
      0 < w.now → pyStrip g1 ≠ "" → pyStrip g2 ≠ "" →
      ∃ (τ1 τ2 : ℤ) (rest1 rest2 : List CallRec),
        (search_books_by_genre (search_books_by_genre w g1 l1).2 g2 l2).2.log =
          w.log ++ CallRec.searchCall (normalizeGenre g1) (min (l1 * 2) 40) τ1 ::
            (rest1 ++ CallRec.searchCall (normalizeGenre g2) (min (l2 * 2) 40) τ2 :: rest2) ∧
        0 < τ1 ∧ τ1 + 1 ≤ τ2) := by
  constructor
  · intro w t h h0
    exact ⟨rate_limit_last w, rate_limit_gap w t h h0⟩
  · intro w g1 g2 l1 l2 hw hg1 hg2
    have hs1 := search_world w g1 l1 hg1
    obtain ⟨rest1, hlog1⟩ := hs1.2
    have hs2 := search_world (search_books_by_genre w g1 l1).2 g2 l2 hg2
    obtain ⟨rest2, hlog2⟩ := hs2.2
    have hτ1pos : 0 < (rate_limit w).now := lt_of_lt_of_le hw (rate_limit_now_ge w)
    have hgap : (rate_limit w).now + 1 ≤
        (rate_limit (search_books_by_genre w g1 l1).2).now :=
      rate_limit_gap _ _ hs1.1 (ne_of_gt hτ1pos)
    refine ⟨(rate_limit w).now, (rate_limit (search_books_by_genre w g1 l1).2).now,
      rest1, rest2, ?_, hτ1pos, hgap⟩
    rw [hlog2, hlog1]
    simp [List.append_assoc]

/-- World used by the C8 amended witness. -/
def c8WitnessWorld : World where
  now := 5
  last_request_time := none
  dt := 0
  searchResp := fun _ _ => SearchResp.ok 200 [] "u"
  descResp := fun _ _ => DescResp.err
  log := []

/-- C8 witness: two consecutive searches on a concrete world place their
primary queries at least one second apart. -/
theorem c8_amended_witness :
    ∃ (τ1 τ2 : ℤ) (rest1 rest2 : List CallRec),
      (search_books_by_genre (search_books_by_genre c8WitnessWorld "fiction" 20).2
        "history" 20).2.log =
        c8WitnessWorld.log ++ CallRec.searchCall (normalizeGenre "fiction") (min (20 * 2) 40) τ1 ::
          (rest1 ++ CallRec.searchCall (normalizeGenre "history") (min (20 * 2) 40) τ2 :: rest2) ∧
      0 < τ1 ∧ τ1 + 1 ≤ τ2 :=
  c8_amended.2 c8WitnessWorld "fiction" "history" 20 20 (by decide) (by decide) (by decide)
